import Mathlib

/-!
Verification of the key-input relay service (maple-bot input examples).

The embedding translates the three Python source files:
  src/examples/python/kmbox_example.py      (Raw Injection Adapter, kmNet)
  src/examples/python/main.py               (Focus-Gated Synthetic Adapter, pywinauto)
  src/examples/python/pywinauto_example.py  (Focus-Gated Synthetic Adapter, pywinauto)
Each gRPC servicer method becomes a Lean function returning, inside
`Except`, the list of backend primitive invocations it performs together
with the `KeyResponse` it returns; a raised Python `KeyError` (failed dict
lookup) becomes `Except.error`, which the gRPC framework surfaces to the
caller as an RPC error.
-/

namespace MapleBot

/-- Abstract keys of the `Key` protobuf enum.  input.proto / input_pb2 are
generated code not under src/; the constructor set is the union of the keys
used by the mapping tables of the three source files, and the letter block
is numbered `A = 0` through `Z = 25` as documented by the source comment
in kmbox_example.py ("A=0 -> HID 4, ..., Z=25 -> HID 29"). -/
inductive Key where
  | A | B | C | D | E | F | G | H | I | J | K | L | M
  | N | O | P | Q | R | S | T | U | V | W | X | Y | Z
  | Zero | One | Two | Three | Four | Five | Six | Seven | Eight | Nine
  | F1 | F2 | F3 | F4 | F5 | F6 | F7 | F8 | F9 | F10 | F11 | F12
  | Up | Down | Left | Right | Home | End | PageUp | PageDown | Insert | Delete
  | Ctrl | Enter | Space | Tilde | Quote | Semicolon | Comma | Period | Slash
  | Esc | Shift | Alt
deriving DecidableEq, Repr

/-- Empty response message `KeyResponse` of input.proto; every servicer
method ends with `return KeyResponse()`. -/
structure KeyResponse where
deriving DecidableEq, Repr

/-- A Python `KeyError` raised by `self.keys_map[request.key]` when the
requested key has no entry; propagated out of the servicer method and hence
surfaced by the gRPC framework as an RPC-level failure. -/
inductive PyError where
  | keyError (k : Key)
deriving DecidableEq, Repr

/-- The three unary RPC operations of the KeyInput service. -/
inductive Op where
  | send | sendUp | sendDown
deriving DecidableEq, Repr

/-! ## kmbox_example.py — Raw Injection Adapter -/

namespace KmboxExample

/-- One invocation of a kmNet hardware primitive. -/
inductive KmNetCall where
  | keypress (code modifier : Nat)
  | keydown (code : Nat)
  | keyup (code : Nat)
deriving DecidableEq, Repr

/-- The servicer state of kmbox_example.py's `KeyInput`: the constructor
stores only `keys_map` (lines 12-15). -/
structure KeyInput where
  keysMap : Key → Option Nat

/-- Lines 17-19: `kmNet.keypress(self.keys_map[request.key], 0)` then
`return KeyResponse()`.  The dict lookup happens first; if it fails no
primitive is invoked. -/
def KeyInput.Send (s : KeyInput) (k : Key) :
    Except PyError (List KmNetCall × KeyResponse) :=
  match s.keysMap k with
  | none => .error (.keyError k)
  | some code => .ok ([.keypress code 0], KeyResponse.mk)

/-- Lines 21-23: `kmNet.keydown(self.keys_map[request.key])` then
`return KeyResponse()`.  Note the source really calls the DOWN primitive
here. -/
def KeyInput.SendUp (s : KeyInput) (k : Key) :
    Except PyError (List KmNetCall × KeyResponse) :=
  match s.keysMap k with
  | none => .error (.keyError k)
  | some code => .ok ([.keydown code], KeyResponse.mk)

/-- Lines 25-27: `kmNet.keyup(self.keys_map[request.key])` then
`return KeyResponse()`.  Note the source really calls the UP primitive
here. -/
def KeyInput.SendDown (s : KeyInput) (k : Key) :
    Except PyError (List KmNetCall × KeyResponse) :=
  match s.keysMap k with
  | none => .error (.keyError k)
  | some code => .ok ([.keyup code], KeyResponse.mk)

/-- gRPC routing: each RPC operation is dispatched to the servicer method
of the same name. -/
def KeyInput.handle (s : KeyInput) (op : Op) (k : Key) :
    Except PyError (List KmNetCall × KeyResponse) :=
  match op with
  | .send => s.Send k
  | .sendUp => s.SendUp k
  | .sendDown => s.SendDown k

/-- State-passing form of a single RPC: the Python method bodies contain no
assignment to `self` or to any global, so the translated step returns the
servicer unchanged next to the method result. -/
def KeyInput.step (s : KeyInput) (op : Op) (k : Key) :
    KeyInput × Except PyError (List KmNetCall × KeyResponse) :=
  (s, s.handle op k)

/-- The kmNet primitives a single request causes (an erroring request
raises before reaching the primitive, so it causes none). -/
def KeyInput.actions (s : KeyInput) (op : Op) (k : Key) : List KmNetCall :=
  match s.handle op k with
  | .ok (calls, _) => calls
  | .error _ => []

/-- The concatenated kmNet primitive trace of a sequence of requests;
each request is handled independently by the server. -/
def KeyInput.run (s : KeyInput) : List (Op × Key) → List KmNetCall
  | [] => []
  | (op, k) :: rest => s.actions op k ++ s.run rest

/-- A key of the Python dict literal in kmbox_example.py lines 33-89.  The
letter block is written `{ Key.Name(i): 4 + i for i in range(26) }`, so
its dict keys are the enum NAME STRINGS, while every other entry is keyed
by the enum value itself; a protobuf enum value is an int, so a lookup
with `request.key` can only ever match a `value`-keyed entry. -/
inductive DictKey where
  | nameStr (s : String)
  | value (k : Key)
deriving DecidableEq, Repr

/-- Protobuf `Key.Name(i)` restricted to the letter block: value `i` in
0..25 has name "A".."Z" (numbering from the source comment). -/
def keyName (i : Nat) : String := String.mk [Char.ofNat (65 + i)]

/-- The dict literal `keys_map` of kmbox_example.py lines 33-89, entry for
entry. -/
def keysMapEntries : List (DictKey × Nat) :=
  ((List.range 26).map fun i => (DictKey.nameStr (keyName i), 4 + i)) ++
  [(.value .Zero, 39), (.value .One, 30), (.value .Two, 31),
   (.value .Three, 32), (.value .Four, 33), (.value .Five, 34),
   (.value .Six, 35), (.value .Seven, 36), (.value .Eight, 37),
   (.value .Nine, 38),
   (.value .F1, 58), (.value .F2, 59), (.value .F3, 60), (.value .F4, 61),
   (.value .F5, 62), (.value .F6, 63), (.value .F7, 64), (.value .F8, 65),
   (.value .F9, 66), (.value .F10, 67), (.value .F11, 68), (.value .F12, 69),
   (.value .Up, 82), (.value .Down, 81), (.value .Left, 80),
   (.value .Right, 79), (.value .Home, 74), (.value .End, 77),
   (.value .PageUp, 75), (.value .PageDown, 78), (.value .Insert, 73),
   (.value .Delete, 76),
   (.value .Ctrl, 224), (.value .Enter, 40), (.value .Space, 44),
   (.value .Tilde, 53), (.value .Quote, 52), (.value .Semicolon, 51),
   (.value .Comma, 54), (.value .Period, 55), (.value .Slash, 56),
   (.value .Esc, 41), (.value .Shift, 225), (.value .Alt, 226)]

/-- Lookup `keys_map[request.key]` against the kmbox dict: the int enum
value only matches `value`-keyed entries. -/
def keysMap (k : Key) : Option Nat :=
  keysMapEntries.lookup (DictKey.value k)

end KmboxExample

/-! ## main.py — Focus-Gated Synthetic Adapter (always-braced tokens) -/

namespace MainExample

/-- The servicer state of main.py's `KeyInput` (lines 14-18): the target
window handle and `keys_map`.  The handle is opaque; we model it as a
number identifying the OS window. -/
structure KeyInput where
  window : Nat
  keysMap : Key → Option String

/-- Lines 20-23: if `self.window.has_keyboard_focus()`, send
`"{" + keys_map[key] + "}"` via `keyboard.send_keys`; always return
`KeyResponse()`.  `env` gives the OS answer to `has_keyboard_focus()` for
each window handle at the time of the call.  The returned list holds the
strings passed to `keyboard.send_keys`. -/
def KeyInput.Send (env : Nat → Bool) (s : KeyInput) (k : Key) :
    Except PyError (List String × KeyResponse) :=
  if env s.window then
    match s.keysMap k with
    | none => .error (.keyError k)
    | some t => .ok (["\x7b" ++ t ++ "\x7d"], KeyResponse.mk)
  else .ok ([], KeyResponse.mk)

/-- Lines 25-29: if focused, send `"{" + keys_map[key] + " up}"`. -/
def KeyInput.SendUp (env : Nat → Bool) (s : KeyInput) (k : Key) :
    Except PyError (List String × KeyResponse) :=
  if env s.window then
    match s.keysMap k with
    | none => .error (.keyError k)
    | some t => .ok (["\x7b" ++ t ++ " up\x7d"], KeyResponse.mk)
  else .ok ([], KeyResponse.mk)

/-- Lines 31-35: if focused, send `"{" + keys_map[key] + " down}"`. -/
def KeyInput.SendDown (env : Nat → Bool) (s : KeyInput) (k : Key) :
    Except PyError (List String × KeyResponse) :=
  if env s.window then
    match s.keysMap k with
    | none => .error (.keyError k)
    | some t => .ok (["\x7b" ++ t ++ " down\x7d"], KeyResponse.mk)
  else .ok ([], KeyResponse.mk)

/-- gRPC routing to the servicer method of the same name. -/
def KeyInput.handle (s : KeyInput) (op : Op) (env : Nat → Bool) (k : Key) :
    Except PyError (List String × KeyResponse) :=
  match op with
  | .send => s.Send env k
  | .sendUp => s.SendUp env k
  | .sendDown => s.SendDown env k

/-- State-passing form of one RPC: the method bodies never assign to
`self.window`, `self.keys_map`, or any other attribute. -/
def KeyInput.step (s : KeyInput) (op : Op) (env : Nat → Bool) (k : Key) :
    KeyInput × Except PyError (List String × KeyResponse) :=
  (s, s.handle op env k)

/-- The dict literal `keys_map` of main.py lines 44-50. -/
def keysMapEntries : List (Key × String) :=
  [(Key.Space, "VK_SPACE"), (Key.Up, "UP"), (Key.Down, "DOWN"),
   (Key.Left, "LEFT"), (Key.Right, "RIGHT")]

/-- Lookup against main.py's dict. -/
def keysMap (k : Key) : Option String := keysMapEntries.lookup k

/-- main.py line 52: `futures.ThreadPoolExecutor(max_workers=10)`. -/
def maxWorkers : Nat := 10

end MainExample

/-! ## pywinauto_example.py — Focus-Gated Synthetic Adapter
(single-character literal path on Send) -/

namespace PywinautoExample

/-- The servicer state of pywinauto_example.py's `KeyInput` (lines 14-18). -/
structure KeyInput where
  window : Nat
  keysMap : Key → Option String

/-- Lines 20-28: if focused, look up `key = self.keys_map[request.key]`;
a single-character token is sent literally, any longer token is sent
wrapped in braces as a named key; always return `KeyResponse()`. -/
def KeyInput.Send (env : Nat → Bool) (s : KeyInput) (k : Key) :
    Except PyError (List String × KeyResponse) :=
  if env s.window then
    match s.keysMap k with
    | none => .error (.keyError k)
    | some key =>
      if key.length = 1 then .ok ([key], KeyResponse.mk)
      else .ok (["\x7b" ++ key ++ "\x7d"], KeyResponse.mk)
  else .ok ([], KeyResponse.mk)

/-- Lines 30-34: if focused, send `"{" + keys_map[key] + " up}"` —
no single-character branch here. -/
def KeyInput.SendUp (env : Nat → Bool) (s : KeyInput) (k : Key) :
    Except PyError (List String × KeyResponse) :=
  if env s.window then
    match s.keysMap k with
    | none => .error (.keyError k)
    | some t => .ok (["\x7b" ++ t ++ " up\x7d"], KeyResponse.mk)
  else .ok ([], KeyResponse.mk)

/-- Lines 36-40: if focused, send `"{" + keys_map[key] + " down}"` —
no single-character branch here. -/
def KeyInput.SendDown (env : Nat → Bool) (s : KeyInput) (k : Key) :
    Except PyError (List String × KeyResponse) :=
  if env s.window then
    match s.keysMap k with
    | none => .error (.keyError k)
    | some t => .ok (["\x7b" ++ t ++ " down\x7d"], KeyResponse.mk)
  else .ok ([], KeyResponse.mk)

/-- gRPC routing to the servicer method of the same name. -/
def KeyInput.handle (s : KeyInput) (op : Op) (env : Nat → Bool) (k : Key) :
    Except PyError (List String × KeyResponse) :=
  match op with
  | .send => s.Send env k
  | .sendUp => s.SendUp env k
  | .sendDown => s.SendDown env k

/-- State-passing form of one RPC: the method bodies never assign to any
attribute of `self`. -/
def KeyInput.step (s : KeyInput) (op : Op) (env : Nat → Bool) (k : Key) :
    KeyInput × Except PyError (List String × KeyResponse) :=
  (s, s.handle op env k)

/-- The dict literal `keys_map` of pywinauto_example.py lines 49-131,
entry for entry ("\x27" is the apostrophe, "\x60" the backtick). -/
def keysMapEntries : List (Key × String) :=
  [(Key.A, "a"), (Key.B, "b"), (Key.C, "c"), (Key.D, "d"), (Key.E, "e"), (Key.F, "f"),
   (Key.G, "g"), (Key.H, "h"), (Key.I, "i"), (Key.J, "j"), (Key.K, "k"), (Key.L, "l"),
   (Key.M, "m"), (Key.N, "n"), (Key.O, "o"), (Key.P, "p"), (Key.Q, "q"), (Key.R, "r"),
   (Key.S, "s"), (Key.T, "t"), (Key.U, "u"), (Key.V, "v"), (Key.W, "w"), (Key.X, "x"),
   (Key.Y, "y"), (Key.Z, "z"),
   (Key.Zero, "0"), (Key.One, "1"), (Key.Two, "2"), (Key.Three, "3"), (Key.Four, "4"),
   (Key.Five, "5"), (Key.Six, "6"), (Key.Seven, "7"), (Key.Eight, "8"), (Key.Nine, "9"),
   (Key.F1, "F1"), (Key.F2, "F2"), (Key.F3, "F3"), (Key.F4, "F4"), (Key.F5, "F5"),
   (Key.F6, "F6"), (Key.F7, "F7"), (Key.F8, "F8"), (Key.F9, "F9"), (Key.F10, "F10"),
   (Key.F11, "F11"), (Key.F12, "F12"),
   (Key.Up, "UP"), (Key.Down, "DOWN"), (Key.Left, "LEFT"), (Key.Right, "RIGHT"),
   (Key.Home, "HOME"), (Key.End, "END"), (Key.PageUp, "PGUP"), (Key.PageDown, "PGDN"),
   (Key.Insert, "INSERT"), (Key.Delete, "DEL"), (Key.Esc, "ESC"),
   (Key.Enter, "ENTER"), (Key.Space, "SPACE"),
   (Key.Ctrl, "^"), (Key.Shift, "+"), (Key.Alt, "%"),
   (Key.Tilde, "\x60"), (Key.Quote, "\x27"), (Key.Semicolon, ";"), (Key.Comma, ","),
   (Key.Period, "."), (Key.Slash, "/")]

/-- Lookup against pywinauto_example.py's dict. -/
def keysMap (k : Key) : Option String := keysMapEntries.lookup k

/-- pywinauto_example.py line 133:
`futures.ThreadPoolExecutor(max_workers=1)`. -/
def maxWorkers : Nat := 1

end PywinautoExample

/-! ## Startup -/

/-- A startup-time configuration failure; the `__main__` blocks install no
exception handler, so any such failure prevents the server from starting. -/
inductive StartupError where
  | windowNotFound
deriving DecidableEq, Repr

/-- Modelled from the spec: `pywinauto.findwindows.find_window` is an
external library call not under src/.  Spec section 6: "Window lookup:
resolves a window-class/title query to a window handle once at startup";
spec section 7 lists "target window not found" as a fatal startup error.
`found` is the list of handles of windows matching the query. -/
def find_window (found : List Nat) : Except StartupError Nat :=
  match found with
  | [] => .error .windowNotFound
  | h :: _ => .ok h

/-- The `__main__` startup of pywinauto_example.py lines 43-138 (and
identically main.py lines 38-57), with the window query result and the
mapping table as the configuration inputs: resolve the window, then build
the servicer and start serving.  No validation of `keys_map` is performed
anywhere in the block. -/
def pywinautoStartup (found : List Nat) (keysMap : Key → Option String) :
    Except StartupError PywinautoExample.KeyInput :=
  match find_window found with
  | .error e => .error e
  | .ok w => .ok { window := w, keysMap := keysMap }

/-- The `__main__` startup of kmbox_example.py lines 30-96 with the mapping
table as the configuration input: there is no window query and no
validation of `keys_map`; the servicer is built and the server started
unconditionally. -/
def kmboxStartup (keysMap : Key → Option Nat) :
    Except StartupError KmboxExample.KeyInput :=
  .ok { keysMap := keysMap }

/-- Whether startup reached `server.start()` (no startup exception). -/
def startedServing {α : Type} : Except StartupError α → Bool
  | .ok _ => true
  | .error _ => false

/-- kmbox_example.py line 91: `futures.ThreadPoolExecutor(max_workers=1)`. -/
def kmboxMaxWorkers : Nat := 1

/-- Modelled from the spec: a gRPC server hands each inbound call to the
executor, so up to `workers` handler calls run concurrently; calls are
serialized (at most one in flight) exactly when the executor has at most
one worker. -/
def serializesCalls (workers : Nat) : Bool := workers ≤ 1

end MapleBot

namespace MapleBot

/-! ## Claim theorems -/

/-- C1: the claim fixes the RPC-to-adapter mapping as Send to press, SendUp
to release, SendDown to hold-down, so on the Raw Injection Adapter with the
sample mapping (Up resolving to 82) `SendDown(Up)` should issue the device's
hold-down primitive and `SendUp(Up)` the release primitive.  Evaluating
kmbox_example.py shows the opposite wiring: `SendDown(Up)` invokes
`kmNet.keyup(82)` (the release primitive) and `SendUp(Up)` invokes
`kmNet.keydown(82)` (the hold-down primitive). -/
theorem kmbox_sendDown_sendUp_swap_primitives :
    (KmboxExample.KeyInput.mk KmboxExample.keysMap).SendDown Key.Up =
      .ok ([.keyup 82], KeyResponse.mk) ∧
    (KmboxExample.KeyInput.mk KmboxExample.keysMap).SendUp Key.Up =
      .ok ([.keydown 82], KeyResponse.mk) := by
  constructor <;> rfl

/-- C2: on both focus-gated servicers, whenever the target window does not
hold keyboard focus, every one of the three RPC operations returns the empty
success response and passes no string to `keyboard.send_keys`. -/
theorem unfocused_requests_succeed_without_synthesis
    (s1 : MainExample.KeyInput) (s2 : PywinautoExample.KeyInput)
    (env1 env2 : Nat → Bool) (op : Op) (k : Key)
    (h1 : env1 s1.window = false) (h2 : env2 s2.window = false) :
    s1.handle op env1 k = .ok ([], KeyResponse.mk) ∧
    s2.handle op env2 k = .ok ([], KeyResponse.mk) := by
  constructor <;> cases op <;>
    simp [MainExample.KeyInput.handle, MainExample.KeyInput.Send,
      MainExample.KeyInput.SendUp, MainExample.KeyInput.SendDown,
      PywinautoExample.KeyInput.handle, PywinautoExample.KeyInput.Send,
      PywinautoExample.KeyInput.SendUp, PywinautoExample.KeyInput.SendDown,
      h1, h2]

/-- Witness for C2 at a concrete unfocused servicer and request. -/
theorem unfocused_requests_succeed_without_synthesis_witness :
    (MainExample.KeyInput.mk 0 MainExample.keysMap).handle .send
        (fun _ => false) Key.Space = .ok ([], KeyResponse.mk) ∧
    (PywinautoExample.KeyInput.mk 0 PywinautoExample.keysMap).handle .send
        (fun _ => false) Key.A = .ok ([], KeyResponse.mk) :=
  unfocused_requests_succeed_without_synthesis
    (MainExample.KeyInput.mk 0 MainExample.keysMap)
    (PywinautoExample.KeyInput.mk 0 PywinautoExample.keysMap)
    (fun _ => false) (fun _ => false) .send Key.A rfl rfl

/-- C3: a key present in the mapping table resolves to its configured token
and `Send` dispatches exactly that token; a key absent from the table makes
the lookup raise, no backend action is dispatched, and the error propagates
out of the servicer method (hence to the RPC caller); the same holds on the
focus-gated adapter once its focus check has passed. -/
theorem resolve_present_token_absent_error
    (m : Key → Option Nat) (ms : Key → Option String)
    (env : Nat → Bool) (w : Nat) (k : Key) :
    (∀ c, m k = some c →
      (KmboxExample.KeyInput.mk m).Send k =
        .ok ([.keypress c 0], KeyResponse.mk)) ∧
    (m k = none →
      (KmboxExample.KeyInput.mk m).Send k = .error (.keyError k)) ∧
    (env w = true → ms k = none →
      (PywinautoExample.KeyInput.mk w ms).Send env k = .error (.keyError k)) := by
  refine ⟨fun c hc => ?_, fun hn => ?_, fun hf hn => ?_⟩
  · simp [KmboxExample.KeyInput.Send, hc]
  · simp [KmboxExample.KeyInput.Send, hn]
  · simp [PywinautoExample.KeyInput.Send, hf, hn]

/-- Witness for C3: Up is mapped to 82 in the kmbox table and dispatches
exactly that keycode; the A request misses the kmbox int-keyed entries and
errors; an unmapped key errors on the focused synthetic adapter too. -/
theorem resolve_present_token_absent_error_witness :
    (KmboxExample.KeyInput.mk KmboxExample.keysMap).Send Key.Up =
      .ok ([.keypress 82 0], KeyResponse.mk) ∧
    (KmboxExample.KeyInput.mk KmboxExample.keysMap).Send Key.A =
      .error (.keyError Key.A) ∧
    (PywinautoExample.KeyInput.mk 0 MainExample.keysMap).Send
        (fun _ => true) Key.A = .error (.keyError Key.A) :=
  ⟨(resolve_present_token_absent_error KmboxExample.keysMap MainExample.keysMap
      (fun _ => true) 0 Key.Up).1 82 (by decide),
   (resolve_present_token_absent_error KmboxExample.keysMap MainExample.keysMap
      (fun _ => true) 0 Key.A).2.1 (by decide),
   (resolve_present_token_absent_error KmboxExample.keysMap MainExample.keysMap
      (fun _ => true) 0 Key.A).2.2 rfl (by decide)⟩

/-- C4: on the focused synthetic adapter of pywinauto_example.py, `Send` of
a key whose mapped token is a single character passes the literal character
to `keyboard.send_keys`, while a longer token is wrapped in braces as a
named-key sequence. -/
theorem send_single_char_literal_else_named
    (s : PywinautoExample.KeyInput) (env : Nat → Bool) (k : Key) (t : String)
    (hf : env s.window = true) (h : s.keysMap k = some t) :
    s.Send env k =
      .ok ([if t.length = 1 then t else "\x7b" ++ t ++ "\x7d"],
        KeyResponse.mk) := by
  by_cases ht : t.length = 1 <;>
    simp [PywinautoExample.KeyInput.Send, hf, h, ht]

/-- Witness for C4: Send(A) synthesizes the literal character a, while
Send(Enter) synthesizes the named key ENTER. -/
theorem send_single_char_literal_else_named_witness :
    (PywinautoExample.KeyInput.mk 0 PywinautoExample.keysMap).Send
        (fun _ => true) Key.A = .ok (["a"], KeyResponse.mk) ∧
    (PywinautoExample.KeyInput.mk 0 PywinautoExample.keysMap).Send
        (fun _ => true) Key.Enter = .ok (["\x7bENTER\x7d"], KeyResponse.mk) :=
  ⟨send_single_char_literal_else_named
      (PywinautoExample.KeyInput.mk 0 PywinautoExample.keysMap)
      (fun _ => true) Key.A "a" rfl (by decide),
   send_single_char_literal_else_named
      (PywinautoExample.KeyInput.mk 0 PywinautoExample.keysMap)
      (fun _ => true) Key.Enter "ENTER" rfl (by decide)⟩

/-- Traces over request sequences split across concatenation: the kmbox
server handles each request independently of the others. -/
theorem kmbox_run_append (s : KmboxExample.KeyInput)
    (a b : List (Op × Key)) : s.run (a ++ b) = s.run a ++ s.run b := by
  induction a with
  | nil => simp [KmboxExample.KeyInput.run]
  | cons hd tl ih =>
    cases hd
    simp [KmboxExample.KeyInput.run, ih]

/-- C5: on the Raw Injection Adapter, `Send` of a mapped key invokes exactly
one backend action, `kmNet.keypress` with the looked-up keycode (and
modifier 0), with no focus precondition (the method takes no window at
all), and appending the request to any prior call history adds exactly that
one action to the trace. -/
theorem raw_send_one_keypress_any_history
    (m : Key → Option Nat) (hist : List (Op × Key)) (k : Key) (c : Nat)
    (h : m k = some c) :
    (KmboxExample.KeyInput.mk m).Send k =
      .ok ([.keypress c 0], KeyResponse.mk) ∧
    (KmboxExample.KeyInput.mk m).run (hist ++ [(.send, k)]) =
      (KmboxExample.KeyInput.mk m).run hist ++ [.keypress c 0] := by
  constructor
  · simp [KmboxExample.KeyInput.Send, h]
  · rw [kmbox_run_append]
    simp [KmboxExample.KeyInput.run, KmboxExample.KeyInput.actions,
      KmboxExample.KeyInput.handle, KmboxExample.KeyInput.Send, h]

/-- Witness for C5 after a concrete one-request history. -/
theorem raw_send_one_keypress_any_history_witness :
    (KmboxExample.KeyInput.mk KmboxExample.keysMap).Send Key.Up =
      .ok ([.keypress 82 0], KeyResponse.mk) ∧
    (KmboxExample.KeyInput.mk KmboxExample.keysMap).run
        [(.sendUp, Key.Down), (.send, Key.Up)] =
      (KmboxExample.KeyInput.mk KmboxExample.keysMap).run
        [(.sendUp, Key.Down)] ++ [.keypress 82 0] :=
  raw_send_one_keypress_any_history KmboxExample.keysMap
    [(.sendUp, Key.Down)] Key.Up 82 (by decide)

/-- C6: every RPC operation on every servicer leaves the servicer state (the
mapping table, and for the gated adapters the window handle) exactly as it
was; no method writes to any attribute, so the state after the call equals
the state before it, whether the call succeeded or raised. -/
theorem rpc_handlers_preserve_state
    (s0 : KmboxExample.KeyInput) (s1 : MainExample.KeyInput)
    (s2 : PywinautoExample.KeyInput) (env : Nat → Bool) (op : Op) (k : Key) :
    (s0.step op k).1 = s0 ∧ (s1.step op env k).1 = s1 ∧
    (s2.step op env k).1 = s2 :=
  ⟨rfl, rfl, rfl⟩

/-- Witness for C6 at concrete servicers and a concrete request. -/
theorem rpc_handlers_preserve_state_witness :
    ((KmboxExample.KeyInput.mk KmboxExample.keysMap).step .send Key.Up).1 =
      KmboxExample.KeyInput.mk KmboxExample.keysMap ∧
    ((MainExample.KeyInput.mk 0 MainExample.keysMap).step .send
        (fun _ => true) Key.Up).1 = MainExample.KeyInput.mk 0 MainExample.keysMap ∧
    ((PywinautoExample.KeyInput.mk 0 PywinautoExample.keysMap).step .send
        (fun _ => true) Key.Up).1 =
      PywinautoExample.KeyInput.mk 0 PywinautoExample.keysMap :=
  rpc_handlers_preserve_state
    (KmboxExample.KeyInput.mk KmboxExample.keysMap)
    (MainExample.KeyInput.mk 0 MainExample.keysMap)
    (PywinautoExample.KeyInput.mk 0 PywinautoExample.keysMap)
    (fun _ => true) .send Key.Up

/-- C7 counterexample: the claim says startup with an empty mapping table
fails service initialization, but no code path validates the table — with
one matching window and a table with no entries, startup reaches
`server.start()` on the pywinauto servicer, and the kmbox startup likewise
accepts an empty table. -/
theorem empty_table_startup_accepted :
    startedServing (pywinautoStartup [7] (fun _ => none)) = true ∧
    startedServing (kmboxStartup (fun _ => none)) = true :=
  ⟨rfl, rfl⟩

/-- C7 amended: a target-window query matching zero windows fails service
initialization (the window lookup raises before the server is built), but
an empty mapping table is never checked: startup succeeds and the service
serves with the empty table. -/
theorem startup_zero_windows_fatal_empty_table_unchecked
    (m : Key → Option String) :
    pywinautoStartup [] m = .error .windowNotFound ∧
    startedServing (pywinautoStartup [7] (fun _ => none)) = true ∧
    startedServing (kmboxStartup (fun _ => none)) = true :=
  ⟨rfl, rfl, rfl⟩

/-- Witness for C7 amended at a concrete mapping table. -/
theorem startup_zero_windows_fatal_empty_table_unchecked_witness :
    pywinautoStartup [] PywinautoExample.keysMap = .error .windowNotFound ∧
    startedServing (pywinautoStartup [7] (fun _ => none)) = true ∧
    startedServing (kmboxStartup (fun _ => none)) = true :=
  startup_zero_windows_fatal_empty_table_unchecked PywinautoExample.keysMap

/-- C8: the claim says the focus-gated servicers run with at most one call
in flight, but main.py builds its server with a ten-worker executor: up to
ten handler calls run concurrently, so its focus-check and synthesize steps
are not serialized; only pywinauto_example.py (and kmbox_example.py) use a
single worker. -/
theorem main_executor_allows_ten_inflight :
    MainExample.maxWorkers = 10 ∧
    serializesCalls MainExample.maxWorkers = false ∧
    serializesCalls PywinautoExample.maxWorkers = true ∧
    serializesCalls kmboxMaxWorkers = true := by
  decide

/-- C9: on both focus-gated servicers the mapping lookup sits inside the
focus branch, so a request for a key absent from the table succeeds (empty
response, nothing synthesized) whenever the window lacks focus, and raises
the lookup error only when the window has focus. -/
theorem unmapped_error_only_when_focused
    (s1 : MainExample.KeyInput) (s2 : PywinautoExample.KeyInput)
    (env1 env2 : Nat → Bool) (op : Op) (k : Key)
    (h1 : s1.keysMap k = none) (h2 : s2.keysMap k = none) :
    (env1 s1.window = false →
      s1.handle op env1 k = .ok ([], KeyResponse.mk)) ∧
    (env1 s1.window = true →
      s1.handle op env1 k = .error (.keyError k)) ∧
    (env2 s2.window = false →
      s2.handle op env2 k = .ok ([], KeyResponse.mk)) ∧
    (env2 s2.window = true →
      s2.handle op env2 k = .error (.keyError k)) := by
  refine ⟨fun hf => ?_, fun hf => ?_, fun hf => ?_, fun hf => ?_⟩ <;>
    cases op <;>
    simp [MainExample.KeyInput.handle, MainExample.KeyInput.Send,
      MainExample.KeyInput.SendUp, MainExample.KeyInput.SendDown,
      PywinautoExample.KeyInput.handle, PywinautoExample.KeyInput.Send,
      PywinautoExample.KeyInput.SendUp, PywinautoExample.KeyInput.SendDown,
      hf, h1, h2]

/-- Witness for C9: A is absent from main.py's five-entry table and from the
empty table; unfocused requests for it succeed, focused ones error. -/
theorem unmapped_error_only_when_focused_witness :
    (MainExample.KeyInput.mk 0 MainExample.keysMap).handle .send
        (fun _ => false) Key.A = .ok ([], KeyResponse.mk) ∧
    (MainExample.KeyInput.mk 0 MainExample.keysMap).handle .send
        (fun _ => true) Key.A = .error (.keyError Key.A) ∧
    (PywinautoExample.KeyInput.mk 0 (fun _ => none)).handle .sendUp
        (fun _ => false) Key.A = .ok ([], KeyResponse.mk) ∧
    (PywinautoExample.KeyInput.mk 0 (fun _ => none)).handle .sendUp
        (fun _ => true) Key.A = .error (.keyError Key.A) :=
  ⟨(unmapped_error_only_when_focused
      (MainExample.KeyInput.mk 0 MainExample.keysMap)
      (PywinautoExample.KeyInput.mk 0 (fun _ => none))
      (fun _ => false) (fun _ => false) .send Key.A (by decide) rfl).1 rfl,
   (unmapped_error_only_when_focused
      (MainExample.KeyInput.mk 0 MainExample.keysMap)
      (PywinautoExample.KeyInput.mk 0 (fun _ => none))
      (fun _ => true) (fun _ => true) .send Key.A (by decide) rfl).2.1 rfl,
   (unmapped_error_only_when_focused
      (MainExample.KeyInput.mk 0 MainExample.keysMap)
      (PywinautoExample.KeyInput.mk 0 (fun _ => none))
      (fun _ => false) (fun _ => false) .sendUp Key.A (by decide) rfl).2.2.1 rfl,
   (unmapped_error_only_when_focused
      (MainExample.KeyInput.mk 0 MainExample.keysMap)
      (PywinautoExample.KeyInput.mk 0 (fun _ => none))
      (fun _ => true) (fun _ => true) .sendUp Key.A (by decide) rfl).2.2.2 rfl⟩

/-- C10: on the focused synthetic adapter of pywinauto_example.py, `SendUp`
and `SendDown` always wrap the mapped token in the braced named-key form
(token followed by " up" or " down"), for every token including
single-character ones; the literal-character path exists only in `Send`. -/
theorem sendUp_sendDown_always_braced
    (s : PywinautoExample.KeyInput) (env : Nat → Bool) (k : Key) (t : String)
    (hf : env s.window = true) (h : s.keysMap k = some t) :
    s.SendUp env k = .ok (["\x7b" ++ t ++ " up\x7d"], KeyResponse.mk) ∧
    s.SendDown env k = .ok (["\x7b" ++ t ++ " down\x7d"], KeyResponse.mk) := by
  constructor <;>
    simp [PywinautoExample.KeyInput.SendUp,
      PywinautoExample.KeyInput.SendDown, hf, h]

/-- Witness for C10 at the single-character token of A: even there the
braced form is synthesized. -/
theorem sendUp_sendDown_always_braced_witness :
    (PywinautoExample.KeyInput.mk 0 PywinautoExample.keysMap).SendUp
        (fun _ => true) Key.A = .ok (["\x7ba up\x7d"], KeyResponse.mk) ∧
    (PywinautoExample.KeyInput.mk 0 PywinautoExample.keysMap).SendDown
        (fun _ => true) Key.A = .ok (["\x7ba down\x7d"], KeyResponse.mk) :=
  sendUp_sendDown_always_braced
    (PywinautoExample.KeyInput.mk 0 PywinautoExample.keysMap)
    (fun _ => true) Key.A "a" rfl (by decide)

end MapleBot
